import Mathlib

/-!
Verification of the wakatime-cli delivery resilience core: the persistent
exponential backoff gate (pkg/backoff), the command execution supervisor
(cmd/legacy run), and the offline fallback sink (cmd/legacy/heartbeat offline
save).  Each Go function the claims mention is embedded as an executable Lean
definition; times are modelled as integer nanoseconds (the resolution of Go's
time package), and Go's 64-bit signed arithmetic is made explicit where it can
overflow.
-/

namespace Wakatime

/-! ## Backoff gate (src/pkg/backoff/backoff.go) -/

/-- Go constant resetAfter: total seconds a backoff will last. -/
def resetAfter : Int := 3600

/-- Go constant factor: seconds multiplied by the exponential term. -/
def factor : Int := 15

/-- Two to the power 63, the magnitude bound of Go's int64. -/
def i64Mod : Int := 2 ^ 63

/-- Wrap-around of an unbounded integer into Go's int64 range,
modelling 64-bit two's-complement overflow. -/
def int64wrap (x : Int) : Int := (x + i64Mod) % (2 * i64Mod) - i64Mod

/-- The Go expression time.Duration(float64(factor)\*math.Pow(2, float64(retries))).
For retries ≤ 1020 the float64 product 15·2^retries is exact (its mantissa is
the 4-bit value 15); the conversion to int64 is exact while the value is below
2^63, and out of range otherwise.  An out-of-range float-to-int conversion is
implementation-specific in Go; gc on amd64 yields the minimum int64, which is
what the else branch records.  No theorem below depends on the else branch. -/
def durationSecInt64 (retries : Nat) : Int :=
  if factor * 2 ^ retries < i64Mod then factor * 2 ^ retries else -i64Mod

/-- The Go expression duration := time.Duration(...) \* time.Second, in
nanoseconds: the int64 multiplication by 10^9 wraps on overflow. -/
def durationNs (retries : Nat) : Int :=
  int64wrap (durationSecInt64 retries * 1000000000)

/-- Embedding of shouldBackoff(retries int, at time.Time) bool.
The instant at is an Option Int in nanoseconds, none standing for the zero
time (at.IsZero()); now is the value of time.Now() during the call.
now.Before(t) is the strict comparison now < t. -/
def shouldBackoff (retries : Int) (At : Option Int) (now : Int) : Bool :=
  if retries < 1 ∨ At.isNone then
    false
  else
    let t0 := At.getD 0
    let duration := durationNs retries.toNat
    decide (now < t0 + duration) && decide (now < t0 + resetAfter * 1000000000)

/-- Int64 wrap-around is the identity on values already in int64 range. -/
theorem int64wrap_eq_self (x : Int) (h1 : -i64Mod ≤ x) (h2 : x < i64Mod) :
    int64wrap x = x := by
  unfold int64wrap
  have hlo : 0 ≤ x + i64Mod := by linarith
  have hhi : x + i64Mod < 2 * i64Mod := by linarith
  rw [Int.emod_eq_of_lt hlo hhi]
  ring

/-- For retries ≤ 29 the nanosecond delay computation does not overflow:
it equals exactly 15·2^retries seconds. -/
theorem durationNs_no_overflow (r : Nat) (hr : r ≤ 29) :
    durationNs r = 15 * 2 ^ r * 1000000000 := by
  have hpow : (2 : Int) ^ r ≤ 2 ^ 29 := by
    exact pow_le_pow_right₀ (by norm_num) hr
  have hpos : (0 : Int) < 2 ^ r := by positivity
  have hsec : factor * 2 ^ r < i64Mod := by
    have : (15 : Int) * 2 ^ r ≤ 15 * 2 ^ 29 := by nlinarith
    have h29 : (15 : Int) * 2 ^ 29 < i64Mod := by unfold i64Mod; norm_num
    unfold factor
    linarith
  unfold durationNs durationSecInt64
  rw [if_pos hsec]
  have hbound : factor * 2 ^ r * 1000000000 < i64Mod := by
    have : (15 : Int) * 2 ^ r * 1000000000 ≤ 15 * 2 ^ 29 * 1000000000 := by nlinarith
    have h29 : (15 : Int) * 2 ^ 29 * 1000000000 < i64Mod := by unfold i64Mod; norm_num
    unfold factor
    linarith
  have hlo : -i64Mod ≤ factor * 2 ^ r * 1000000000 := by
    have : (0 : Int) ≤ 15 * 2 ^ r * 1000000000 := by positivity
    have hm : (0 : Int) < i64Mod := by unfold i64Mod; norm_num
    unfold factor
    linarith
  rw [int64wrap_eq_self _ hlo hbound]
  unfold factor
  ring

/-- C1 (counterexample).  At retries = 30, since = epoch, now = 10 s after
epoch, the claim requires the gate to block (10 s < 15·2^30 s and
10 s < 3600 s), yet shouldBackoff returns false: the int64 product
15·2^30·10^9 ns wraps to a negative duration. -/
theorem shouldBackoff_claim_counterexample :
    (1 ≤ (30 : Int)) ∧
      ((10 : Int) * 1000000000 < 0 + 15 * 2 ^ 30 * 1000000000) ∧
      ((10 : Int) * 1000000000 < 0 + 3600 * 1000000000) ∧
      shouldBackoff 30 (some 0) (10 * 1000000000) = false := by
  refine ⟨by norm_num, by norm_num, by norm_num, ?_⟩
  decide

/-- C1 (amended).  The gate never blocks when retries < 1 or since is unset,
and never blocks once now ≥ since + 3600 s, for every retries; and for
1 ≤ retries ≤ 29 (the range in which the 64-bit nanosecond computation of
15·2^retries seconds does not overflow) it blocks exactly when both
now < since + 15·2^retries s and now < since + 3600 s hold. -/
theorem shouldBackoff_spec (r t0 now : Int) :
    (r < 1 → ∀ a : Option Int, shouldBackoff r a now = false) ∧
      (shouldBackoff r none now = false) ∧
      (t0 + 3600 * 1000000000 ≤ now → shouldBackoff r (some t0) now = false) ∧
      (1 ≤ r → r ≤ 29 →
        shouldBackoff r (some t0) now =
          (decide (now < t0 + 15 * 2 ^ r.toNat * 1000000000) &&
            decide (now < t0 + 3600 * 1000000000))) := by
  refine ⟨?_, ?_, ?_, ?_⟩
  · intro hr a
    unfold shouldBackoff
    rw [if_pos (Or.inl hr)]
  · unfold shouldBackoff
    have hnone : (none : Option Int).isNone = true := rfl
    rw [if_pos (Or.inr hnone)]
  · intro hnow
    unfold shouldBackoff
    by_cases hr : r < 1
    · rw [if_pos (Or.inl hr)]
    · rw [if_neg]
      · simp only [Option.getD_some]
        have : ¬ (now < t0 + resetAfter * 1000000000) := by
          unfold resetAfter
          linarith
        simp [this]
      · push_neg
        refine ⟨by linarith [not_lt.mp hr], by simp⟩
  · intro h1 h29
    unfold shouldBackoff
    rw [if_neg]
    · simp only [Option.getD_some]
      have hn : r.toNat ≤ 29 := by omega
      rw [durationNs_no_overflow r.toNat hn]
      unfold resetAfter
      rfl
    · push_neg
      refine ⟨by linarith, by simp⟩

/-- C1 (witness).  The spec scenario retries = 2, since = 20 s before now:
the amended rule applies and the gate blocks (15·2^2 = 60 s > 20 s). -/
theorem shouldBackoff_spec_witness :
    shouldBackoff 2 (some 0) (20 * 1000000000) = true := by
  have h := (shouldBackoff_spec 2 0 (20 * 1000000000)).2.2.2 (by norm_num) (by norm_num)
  rw [h]
  decide

/-! ## The gate as a handle option (WithBackoff, src/pkg/backoff/backoff.go) -/

/-- Modelled from the spec: pkg/heartbeat is not under src/.  The heartbeat
value object carries an always-present entity path and timestamp; the backoff
gate and the offline sink treat the batch opaquely, so no further field
matters here. -/
structure Heartbeat where
  entity : String
  time : Int
deriving DecidableEq

/-- Modelled from the spec: the outcome classification of submitting one
heartbeat (accepted, rejected, or error). -/
inductive SendStatus where
  | accepted : SendStatus
  | rejected : SendStatus
  | errored : SendStatus
deriving DecidableEq

/-- Modelled from the spec: one Result per submitted heartbeat - a status
classification plus optional diagnostic text. -/
structure Result where
  status : SendStatus
  diagnostic : Option String
deriving DecidableEq

/-- Go struct backoff.Config: the durable backoff state read at gate entry.
At is the recorded failure instant (none for the zero time), Retries the
consecutive-failure count. -/
structure BackoffConfig where
  Retries : Int
  At : Option Int
deriving DecidableEq

/-- One evaluation of the handle returned by WithBackoff: the value handed
back to the caller, the backoff-settings update issued to the config writer
(as the pair retries/at passed to updateBackoffSettings; none when no write is
attempted), and the warnings logged. -/
structure GateOutcome where
  ret : Except String (List Result)
  write : Option (Int × Option Int)
  warnings : List String

/-- Embedding of the handle produced by WithBackoff(config) around next.
now models the current time; Go samples time.Now() once in shouldBackoff and
once for the failure instant, both within the same call, modelled as the same
instant.  persistOk is the success of updateBackoffSettings (which fails when
NewIniWriter or IniWriter.Write fails); the source only logs that failure. -/
def withBackoff (config : BackoffConfig) (now : Int) (persistOk : Bool)
    (next : List Heartbeat → Except String (List Result))
    (hh : List Heartbeat) : GateOutcome :=
  if shouldBackoff config.Retries config.At now then
    { ret := Except.error "won't send heartbeat due to backoff"
      write := none
      warnings := [] }
  else
    match next hh with
    | Except.error err =>
        { ret := Except.error err
          write := some (config.Retries + 1, some now)
          warnings := if persistOk then [] else ["failed to update backoff settings"] }
    | Except.ok results =>
        if config.At.isSome then
          { ret := Except.ok results
            write := some (0, none)
            warnings := if persistOk then [] else ["failed to reset backoff settings"] }
        else
          { ret := Except.ok results
            write := none
            warnings := [] }

/-- C2.  When the gate does not block and the delegate fails, the gate issues
a settings write of retries + 1 with since = the failure instant, and hands
the delegate's error back unchanged. -/
theorem withBackoff_failure_increments (config : BackoffConfig) (now : Int)
    (persistOk : Bool) (next : List Heartbeat → Except String (List Result))
    (hh : List Heartbeat) (e : String)
    (hblock : shouldBackoff config.Retries config.At now = false)
    (hnext : next hh = Except.error e) :
    (withBackoff config now persistOk next hh).ret = Except.error e ∧
      (withBackoff config now persistOk next hh).write =
        some (config.Retries + 1, some now) := by
  unfold withBackoff
  rw [hblock, hnext]
  simp

/-- C2 (witness).  A healthy state, an immediately failing delegate: the gate
returns the delegate error and writes retries 1, since = now. -/
theorem withBackoff_failure_increments_witness :
    (withBackoff ⟨0, none⟩ 5 true (fun _ => Except.error "api down") []).ret =
        Except.error "api down" ∧
      (withBackoff ⟨0, none⟩ 5 true (fun _ => Except.error "api down") []).write =
        some (1, some 5) :=
  withBackoff_failure_increments ⟨0, none⟩ 5 true
    (fun _ => Except.error "api down") [] "api down" (by decide) rfl

/-- C3.  When the gate does not block and the delegate succeeds, the results
are returned unchanged; a settings write resetting retries to 0 and clearing
since is issued exactly when a failure streak existed (At set), and no write
at all is issued when the state was already healthy. -/
theorem withBackoff_success_resets (config : BackoffConfig) (now : Int)
    (persistOk : Bool) (next : List Heartbeat → Except String (List Result))
    (hh : List Heartbeat) (results : List Result)
    (hblock : shouldBackoff config.Retries config.At now = false)
    (hnext : next hh = Except.ok results) :
    (withBackoff config now persistOk next hh).ret = Except.ok results ∧
      (config.At.isSome = true →
        (withBackoff config now persistOk next hh).write = some (0, none)) ∧
      (config.At = none →
        (withBackoff config now persistOk next hh).write = none) := by
  unfold withBackoff
  rw [hblock, hnext]
  by_cases hAt : config.At.isSome = true
  · refine ⟨by simp [hAt], fun _ => by simp [hAt], fun hnone => ?_⟩
    exact absurd hAt (by simp [hnone])
  · exact ⟨by simp [hAt], fun h => absurd h hAt, fun _ => by simp [hAt]⟩

/-- C3 (witness).  After a streak (retries 3, since set), a succeeding
delegate yields the results and a reset write; the same theorem applied to a
healthy state yields no write. -/
theorem withBackoff_success_resets_witness :
    ((withBackoff ⟨3, some 100⟩ 4000000000000 true (fun _ => Except.ok []) []).ret =
        Except.ok [] ∧
      (withBackoff ⟨3, some 100⟩ 4000000000000 true (fun _ => Except.ok []) []).write =
        some (0, none)) ∧
      (withBackoff ⟨0, none⟩ 7 true (fun _ => Except.ok []) []).write = none := by
  have h1 := withBackoff_success_resets ⟨3, some 100⟩ 4000000000000 true
    (fun _ => Except.ok []) [] [] (by decide) rfl
  have h2 := withBackoff_success_resets ⟨0, none⟩ 7 true
    (fun _ => Except.ok []) [] [] (by decide) rfl
  exact ⟨⟨h1.1, h1.2.1 rfl⟩, h2.2.2 rfl⟩

/-- C8.  A persistence failure is swallowed: the value returned to the caller
and the update issued are identical whether the config write succeeds or
fails, and whenever an update was issued and failed, a warning is logged. -/
theorem withBackoff_persist_failure_swallowed (config : BackoffConfig)
    (now : Int) (next : List Heartbeat → Except String (List Result))
    (hh : List Heartbeat) :
    (withBackoff config now false next hh).ret =
        (withBackoff config now true next hh).ret ∧
      (withBackoff config now false next hh).write =
        (withBackoff config now true next hh).write ∧
      ((withBackoff config now false next hh).write.isSome = true →
        (withBackoff config now false next hh).warnings ≠ []) := by
  unfold withBackoff
  by_cases hb : shouldBackoff config.Retries config.At now
  · simp [hb]
  · simp only [hb, Bool.false_eq_true, if_false]
    match hnext : next hh with
    | Except.error err => simp
    | Except.ok results =>
      by_cases hAt : config.At.isSome
      · simp [hAt]
      · simp [hAt]

/-- C8 (witness).  Concrete failing delegate with failing persistence: the
returned error and the issued update match the persistence-success run, and
the failed update is logged. -/
theorem withBackoff_persist_failure_swallowed_witness :
    ((withBackoff ⟨0, none⟩ 5 false (fun _ => Except.error "api down") []).ret =
        (withBackoff ⟨0, none⟩ 5 true (fun _ => Except.error "api down") []).ret) ∧
      (withBackoff ⟨0, none⟩ 5 false (fun _ => Except.error "api down") []).warnings ≠ [] := by
  have h := withBackoff_persist_failure_swallowed ⟨0, none⟩ 5
    (fun _ => Except.error "api down") []
  exact ⟨h.1, h.2.2 (by decide)⟩

/-! ## Command supervisor (runCmd, RunCmdWithOfflineSync, cmd/legacy/run.go) -/

/-- Modelled from the spec: pkg/exitcode is not under src/.  Section 6 of the
spec lists Success, ErrGeneric, ErrConfigFileParse and ErrAuth as the distinct
observable process exit codes; they are represented by distinct integers. -/
def exitcode.Success : Int := 0

/-- Modelled from the spec: the generic-error exit code, distinct from
Success. -/
def exitcode.ErrGeneric : Int := 1

/-- Modelled from the spec: the config-parse-failure exit code. -/
def exitcode.ErrConfigFileParse : Int := 103

/-- Modelled from the spec: the authentication-error exit code. -/
def exitcode.ErrAuth : Int := 104

/-- Behaviour of one invocation of a command function cmdFn: either a normal
return of (exit code, optional error), or an escaping fatal fault. -/
inductive CmdResult where
  | returns (exitCode : Int) (err : Option String) : CmdResult
  | panics (msg : String) : CmdResult
deriving DecidableEq

/-- How control leaves runCmd: a normal return of an exit code to the caller,
or a direct process termination (os.Exit inside the recover handler). -/
inductive ExitPath where
  | returned (code : Int) : ExitPath
  | processExit (code : Int) : ExitPath
deriving DecidableEq

/-- The integer exit code carried by either exit path. -/
def ExitPath.code : ExitPath → Int
  | ExitPath.returned c => c
  | ExitPath.processExit c => c

/-- Observable outcome of one runCmd call: how control left, whether
sendDiagnostics was invoked, and whether resetLogs restored the original log
sink (undoing the MultiWriter installed by captureLogs). -/
structure RunOutcome where
  exit : ExitPath
  diagnosticsSent : Bool
  logsRestored : Bool
deriving DecidableEq

/-- Embedding of runCmd(v, verbose, cmd) int.  The deferred recover handler
fires only on a fatal fault: it restores the logs, sends diagnostics unless
verbose, and terminates the process with ErrGeneric.  On a normal return with
a non-nil error the logs are restored and diagnostics are sent when the exit
code differs from ErrAuth and verbose is set; on a normal return without
error nothing besides returning the exit code happens. -/
def runCmd (verbose : Bool) (cmd : CmdResult) : RunOutcome :=
  match cmd with
  | CmdResult.panics _ =>
      { exit := ExitPath.processExit exitcode.ErrGeneric
        diagnosticsSent := !verbose
        logsRestored := true }
  | CmdResult.returns exitCode err =>
      match err with
      | some _ =>
          { exit := ExitPath.returned exitCode
            diagnosticsSent := decide (exitCode ≠ exitcode.ErrAuth) && verbose
            logsRestored := true }
      | none =>
          { exit := ExitPath.returned exitCode
            diagnosticsSent := false
            logsRestored := false }

/-- Final outcome of RunCmdWithOfflineSync: the process exit code and whether
the offline resync command was invoked. -/
structure SyncOutcome where
  finalExit : Int
  resyncInvoked : Bool
deriving DecidableEq

/-- Embedding of RunCmdWithOfflineSync(v, verbose, cmd).  If runCmd exits the
process internally (fatal-fault path), the resync command never starts; on a
non-Success returned code the process exits with that code; otherwise the
fixed offline-sync command runs and its exit code terminates the process. -/
def RunCmdWithOfflineSync (verbose : Bool) (cmd syncCmd : CmdResult) : SyncOutcome :=
  match (runCmd verbose cmd).exit with
  | ExitPath.processExit c => { finalExit := c, resyncInvoked := false }
  | ExitPath.returned c =>
      if c ≠ exitcode.Success then
        { finalExit := c, resyncInvoked := false }
      else
        { finalExit := (runCmd verbose syncCmd).exit.code, resyncInvoked := true }

/-- C4 (counterexample).  At exit code ErrGeneric with verbose off, the input
is not the excepted combination (ErrAuth with verbose), so the claim requires
a diagnostics upload, yet runCmd sends none: the source guards the upload
with exitCode != ErrAuth AND verbose. -/
theorem runCmd_error_upload_counterexample :
    ¬(exitcode.ErrGeneric = exitcode.ErrAuth ∧ (false : Bool) = true) ∧
      (runCmd false (CmdResult.returns exitcode.ErrGeneric (some "network error"))).diagnosticsSent =
        false := by
  constructor
  · intro h
    exact absurd h.1 (by decide)
  · rfl

/-- C4 (amended).  On a normal return with a non-nil error, diagnostics are
uploaded if and only if the returned exit code differs from ErrAuth and
verbose mode is active; in every other (exit code, verbose) combination no
upload happens. -/
theorem runCmd_error_upload (verbose : Bool) (code : Int) (e : String) :
    (runCmd verbose (CmdResult.returns code (some e))).diagnosticsSent =
      (decide (code ≠ exitcode.ErrAuth) && verbose) := rfl

/-- C5.  A fatal fault is contained at the supervisor boundary: the outcome
is a process exit with code ErrGeneric, diagnostics are sent exactly when
verbose is off; and a command returning without error never triggers a
diagnostics upload. -/
theorem runCmd_panic_contained (verbose : Bool) (msg : String) (code : Int) :
    (runCmd verbose (CmdResult.panics msg)).exit =
        ExitPath.processExit exitcode.ErrGeneric ∧
      (runCmd verbose (CmdResult.panics msg)).diagnosticsSent = !verbose ∧
      (runCmd verbose (CmdResult.returns code none)).diagnosticsSent = false :=
  ⟨rfl, rfl, rfl⟩

/-- C6.  The offline resync command runs if and only if the primary command's
exit code is Success; a non-Success primary terminates the process with its
own code and the resync never starts, while after a Success primary the
process terminates with the resync command's exit code. -/
theorem RunCmdWithOfflineSync_spec (verbose : Bool) (cmd syncCmd : CmdResult) :
    ((RunCmdWithOfflineSync verbose cmd syncCmd).resyncInvoked = true ↔
        (runCmd verbose cmd).exit.code = exitcode.Success) ∧
      ((runCmd verbose cmd).exit.code ≠ exitcode.Success →
        (RunCmdWithOfflineSync verbose cmd syncCmd).finalExit =
            (runCmd verbose cmd).exit.code ∧
          (RunCmdWithOfflineSync verbose cmd syncCmd).resyncInvoked = false) ∧
      ((runCmd verbose cmd).exit.code = exitcode.Success →
        (RunCmdWithOfflineSync verbose cmd syncCmd).finalExit =
            (runCmd verbose syncCmd).exit.code ∧
          (RunCmdWithOfflineSync verbose cmd syncCmd).resyncInvoked = true) := by
  unfold RunCmdWithOfflineSync
  match hcmd : cmd with
  | CmdResult.panics msg =>
      refine ⟨⟨fun h => absurd h (by simp [runCmd]), fun h => ?_⟩, fun _ => by simp [runCmd, ExitPath.code], fun h => ?_⟩
      · exact absurd h (by simp [runCmd, ExitPath.code, exitcode.ErrGeneric, exitcode.Success])
      · exact absurd h (by simp [runCmd, ExitPath.code, exitcode.ErrGeneric, exitcode.Success])
  | CmdResult.returns code err =>
      have hexit : (runCmd verbose (CmdResult.returns code err)).exit = ExitPath.returned code := by
        cases err <;> rfl
      rw [hexit]
      by_cases hc : code = exitcode.Success
      · subst hc
        simp [ExitPath.code]
      · simp [ExitPath.code, hc]

/-- C6 (witness).  A primary command returning Success followed by a resync
command returning 5: the resync runs and the process exits with 5. -/
theorem RunCmdWithOfflineSync_spec_witness :
    (RunCmdWithOfflineSync false (CmdResult.returns exitcode.Success none)
          (CmdResult.returns 5 none)).finalExit = 5 ∧
      (RunCmdWithOfflineSync false (CmdResult.returns exitcode.Success none)
          (CmdResult.returns 5 none)).resyncInvoked = true :=
  (RunCmdWithOfflineSync_spec false (CmdResult.returns exitcode.Success none)
      (CmdResult.returns 5 none)).2.2 (by decide)

/-- C9 (counterexample).  On a normal success return the claim requires the
log sink to have been restored, yet runCmd never calls resetLogs on that
path: the deferred handler restores only on a fault, and the error branch is
skipped. -/
theorem runCmd_success_no_restore_counterexample :
    (runCmd false (CmdResult.returns exitcode.Success none)).logsRestored = false := rfl

/-- C9 (amended).  The supervisor restores the original log sink on a normal
return with a non-nil error and on a fatal fault, and on normal success it
returns the command's exit code unchanged but leaves the capturing sink in
place (no restoration on that path). -/
theorem runCmd_log_restoration (verbose : Bool) (code : Int) (e msg : String) :
    (runCmd verbose (CmdResult.returns code (some e))).logsRestored = true ∧
      (runCmd verbose (CmdResult.panics msg)).logsRestored = true ∧
      (runCmd verbose (CmdResult.returns code none)).logsRestored = false ∧
      (runCmd verbose (CmdResult.returns code none)).exit = ExitPath.returned code :=
  ⟨rfl, rfl, rfl, rfl⟩

/-! ## Offline fallback sink (SaveHeartbeats, cmd/legacy/heartbeat/offline.go) -/

/-- Environment of one SaveHeartbeats call: the outcomes of its collaborator
calls.  heartbeatParamsErr is the error of LoadHeartbeatParams (consulted by
loadParams only when no batch was provided; LoadAPIParams and
LoadOfflineParams failures are merely logged); offlineDisabled is
params.Offline.Disabled; withQueueErr the error of offline.WithQueue;
handleResult the behaviour of the composed pipeline ending in the offline
queue writer; builtHeartbeats the batch buildHeartbeats would assemble. -/
structure OfflineEnv where
  heartbeatParamsErr : Option String
  offlineDisabled : Bool
  withQueueErr : Option String
  handleResult : List Heartbeat → Except String (List Result)
  builtHeartbeats : List Heartbeat

/-- Observable outcome of one SaveHeartbeats call: the error returned to the
caller (none on nil), whether the composed handle (and hence the offline
queue enqueue) was invoked, and the discarded outcome of that invocation. -/
structure SaveOutcome where
  ret : Option String
  handleInvoked : Bool
  handleOutcome : Option (Except String (List Result))

/-- Embedding of SaveHeartbeats(v, heartbeats, queueFilepath).  loadParams
fails only when heartbeats is nil and the heartbeat parameters cannot be
loaded; the disabled check precedes any pipeline construction; a WithQueue
failure aborts before the handle exists; otherwise the handle runs on the
given (or built) batch and both its results and its error are discarded. -/
def SaveHeartbeats (env : OfflineEnv) (heartbeats : Option (List Heartbeat)) : SaveOutcome :=
  match (if heartbeats.isNone then env.heartbeatParamsErr else none) with
  | some e =>
      { ret := some ("failed to load command parameters: " ++ e)
        handleInvoked := false
        handleOutcome := none }
  | none =>
      if env.offlineDisabled then
        { ret := some "saving to offline db disabled"
          handleInvoked := false
          handleOutcome := none }
      else
        match env.withQueueErr with
        | some e =>
            { ret := some ("failed saving heartbeats because unable to init offline queue: " ++ e)
              handleInvoked := false
              handleOutcome := none }
        | none =>
            { ret := none
              handleInvoked := true
              handleOutcome := some (env.handleResult (heartbeats.getD env.builtHeartbeats)) }

/-- C7.  Whenever offline persistence is disabled in configuration, the call
returns a non-nil error and the composed handle - and with it the offline
queue enqueue - is never invoked. -/
theorem SaveHeartbeats_disabled_errors (env : OfflineEnv)
    (heartbeats : Option (List Heartbeat))
    (hdis : env.offlineDisabled = true) :
    (SaveHeartbeats env heartbeats).ret.isSome = true ∧
      (SaveHeartbeats env heartbeats).handleInvoked = false := by
  unfold SaveHeartbeats
  match (if heartbeats.isNone then env.heartbeatParamsErr else none) with
  | some e => exact ⟨rfl, rfl⟩
  | none => rw [if_pos hdis]; exact ⟨rfl, rfl⟩

/-- C7 (witness).  A disabled configuration with a provided batch: an error
comes back and the handle never runs. -/
theorem SaveHeartbeats_disabled_errors_witness :
    (SaveHeartbeats ⟨none, true, none, fun _ => Except.ok [], []⟩ (some [])).ret.isSome = true ∧
      (SaveHeartbeats ⟨none, true, none, fun _ => Except.ok [], []⟩ (some [])).handleInvoked = false :=
  SaveHeartbeats_disabled_errors ⟨none, true, none, fun _ => Except.ok [], []⟩ (some []) rfl

/-- C10.  Once the parameters load, offline persistence is enabled and the
offline queue option initializes, SaveHeartbeats returns nil whatever the
invoked handle produces - the pipeline outcome (success or error) is
discarded and invisible to the caller. -/
theorem SaveHeartbeats_enabled_returns_ok (env : OfflineEnv)
    (heartbeats : Option (List Heartbeat))
    (hload : heartbeats.isNone = true → env.heartbeatParamsErr = none)
    (hdis : env.offlineDisabled = false)
    (hq : env.withQueueErr = none) :
    (SaveHeartbeats env heartbeats).ret = none ∧
      (SaveHeartbeats env heartbeats).handleInvoked = true := by
  unfold SaveHeartbeats
  have hparams : (if heartbeats.isNone then env.heartbeatParamsErr else none) = none := by
    by_cases hn : heartbeats.isNone = true
    · rw [if_pos hn]
      exact hload hn
    · rw [if_neg hn]
  rw [hparams, hdis, hq]
  exact ⟨rfl, rfl⟩

/-- C10 (witness).  Enabled persistence, working queue init, and a pipeline
whose terminal write fails: the caller still receives nil. -/
theorem SaveHeartbeats_enabled_returns_ok_witness :
    (SaveHeartbeats ⟨none, false, none, fun _ => Except.error "queue full", []⟩ (some [⟨"main.go", 0⟩])).ret = none ∧
      (SaveHeartbeats ⟨none, false, none, fun _ => Except.error "queue full", []⟩ (some [⟨"main.go", 0⟩])).handleInvoked = true :=
  SaveHeartbeats_enabled_returns_ok
    ⟨none, false, none, fun _ => Except.error "queue full", []⟩ (some [⟨"main.go", 0⟩])
    (fun h => by exact absurd h (by decide)) rfl rfl

end Wakatime
